import Mathlib

/-!
Shallow embedding of run.py, the bootstrap launcher of the RAG repository.

The script is sequential: banner, Python-version check, requirements check,
interactive confirmation, package install, server spawn, browser open, then a
blocking wait on the child with a signal-driven shutdown path.  External
effects (filesystem, subprocesses, the user at the prompt, signal delivery)
are modelled as explicit inputs; each Python function becomes a total Lean
function of those inputs.
-/

namespace RAG

/-- Files required by check_requirements (keys of the required_files dict, in
order). -/
def required_files : List String := [".env", "requirements.txt", "main.py", "index.html"]

/-- Keys required inside the .env file by check_requirements. -/
def required_keys : List String := ["SUPABASE_URL", "SUPABASE_KEY", "GEMINI_API_KEY"]

/-- Snapshot of the filesystem facts that check_requirements consults:
which paths exist (os.path.exists), and the outcome of reading the .env
file (Except.error models the exception branch of the try block; the payload
is the exception text). -/
structure FS where
  pathExists : String → Bool
  envRead : Except String String

/-- Result of check_requirements.  The Python function returns a single bool
and prints its findings; the embedding keeps the findings so that theorems
can speak about them: ok is the returned bool, envOpened records whether the
open call on .env was reached, missing_files and missing_keys are the lists
the function builds. -/
structure CheckResult where
  ok : Bool
  envOpened : Bool
  missing_files : List String
  missing_keys : List String
deriving DecidableEq

/-- Executable substring containment on character lists, modelling the
Python in operator on strings: the needle occurs contiguously inside the
haystack. -/
def occursIn (needle : List Char) : List Char → Bool
  | [] => needle.isEmpty
  | c :: rest => needle.isPrefixOf (c :: rest) || occursIn needle rest

/-- Python substring test: the string key ++ "=" occurs inside content
(the expression f"\x7bkey\x7d=" in env_content). -/
def hasMarker (key content : String) : Bool :=
  occursIn (key ++ "=").toList content.toList

/-- Embedding of check_requirements (run.py lines 24 to 77).  First the four
required files are tested for existence; on any miss the function returns
False before touching .env.  Otherwise .env is read inside a try block: a
read fault returns False (the except branch), a missing KEY= marker returns
False, and otherwise True. -/
def check_requirements (fs : FS) : CheckResult :=
  if (required_files.filter (fun f => !fs.pathExists f)).isEmpty then
    match fs.envRead with
    | Except.error _ => ⟨false, true, [], []⟩
    | Except.ok env_content =>
      if (required_keys.filter (fun k => !hasMarker k env_content)).isEmpty then
        ⟨true, true, [], []⟩
      else
        ⟨false, true, [], required_keys.filter (fun k => !hasMarker k env_content)⟩
  else
    ⟨false, false, required_files.filter (fun f => !fs.pathExists f), []⟩

/-- Embedding of check_python_version (run.py lines 79 to 89): False when
major < 3 or (major == 3 and minor < 8), True otherwise. -/
def check_python_version (major minor : Nat) : Bool :=
  if major < 3 || (major == 3 && minor < 8) then false else true

/-- Outcome of one subprocess invocation: the command ran to completion with
an exit code and captured streams, or the invocation itself faulted (for
example, command not found), which in Python surfaces as an exception. -/
inductive CmdResult
  | completed (exitCode : Int) (stdout stderr : String)
  | fault (msg : String)
deriving DecidableEq

/-- Diagnostic text printed by install_packages when the install command
exits nonzero (the CalledProcessError branch, run.py lines 106 to 113). -/
def install_fail_diag (stderr : String) : String :=
  "Package installation failed: " ++ stderr

/-- Diagnostic text printed by install_packages when invoking a command
faults (the except Exception branch, run.py lines 114 to 116). -/
def unexpected_error_diag (msg : String) : String :=
  "Unexpected error: " ++ msg

/-- Embedding of install_packages (run.py lines 91 to 116).  The pip upgrade
runs with check=False, so its exit code is ignored, but a fault raised while
invoking it is caught by the except Exception branch.  The install step runs
with check=True: a nonzero exit raises CalledProcessError, caught and turned
into a failure with the captured stderr; a zero exit returns True.  The
result pairs the returned bool with the failure diagnostic (empty on
success). -/
def install_packages (upgrade install : CmdResult) : Bool × String :=
  match upgrade with
  | CmdResult.fault m => (false, unexpected_error_diag m)
  | CmdResult.completed _ _ _ =>
    match install with
    | CmdResult.fault m => (false, unexpected_error_diag m)
    | CmdResult.completed code _ stderr =>
      if code = 0 then (true, "")
      else (false, install_fail_diag stderr)

/-- Behaviour of the spawned backend child as start_server can observe it:
the Popen call faults, the child exits within the 5 second grace sleep (so
poll() returns a code), or the child is still alive after the sleep. -/
inductive SpawnBehavior
  | popenFault (msg : String)
  | earlyExit (code : Int) (stdout stderr : String)
  | alive
deriving DecidableEq

/-- Result of start_server: success returns the process handle, failure
returns None after printing a diagnostic. -/
inductive SpawnResult
  | success
  | failure (diag : String)
deriving DecidableEq

/-- Diagnostic printed when the child exits within the grace window
(run.py lines 139 to 145): the header, then the captured stderr and stdout,
each only when nonempty. -/
def spawn_failure_report (stdout stderr : String) : String :=
  "Server failed to start:"
    ++ (if stderr = "" then "" else " Error: " ++ stderr)
    ++ (if stdout = "" then "" else " Output: " ++ stdout)

/-- Embedding of start_server (run.py lines 118 to 149).  Popen, a fixed
5 second sleep, then poll(): still running means success; an early exit
means communicate() collects the output and None is returned with the
diagnostic; a fault from Popen is caught by the except branch. -/
def start_server (b : SpawnBehavior) : SpawnResult :=
  match b with
  | SpawnBehavior.popenFault m => SpawnResult.failure ("Failed to start the server: " ++ m)
  | SpawnBehavior.earlyExit _ stdout stderr => SpawnResult.failure (spawn_failure_report stdout stderr)
  | SpawnBehavior.alive => SpawnResult.success

/-- Outcome of open_browser: the page opened, or the except branch caught a
fault and printed a warning. -/
inductive BrowserOutcome
  | opened
  | warned (msg : String)
deriving DecidableEq

/-- Embedding of open_browser (run.py lines 151 to 163).  Any fault while
resolving the path or invoking the browser is caught and reported as a
warning; the function is total and returns nothing the caller looks at. -/
def open_browser (fault : Option String) : BrowserOutcome :=
  match fault with
  | some e => BrowserOutcome.warned ("Failed to open the browser automatically: " ++ e)
  | none => BrowserOutcome.opened

/-- Python exceptions relevant to the wait phase of main.  SystemExit is
what sys.exit raises; it derives from BaseException, not Exception, so it is
caught by neither the except KeyboardInterrupt clause nor the except
Exception clause of main. -/
inductive PyExc
  | keyboardInterrupt
  | systemExit (code : Nat)
  | exception (msg : String)
deriving DecidableEq

/-- Embedding of signal_handler (run.py lines 182 to 185): the registered
SIGINT handler calls sys.exit(0), so delivery of SIGINT raises
SystemExit(0) at the interruption point of the main thread. -/
def signal_handler : PyExc := PyExc.systemExit 0

/-- How the blocking server_process.wait() call in main ends: the child
exits on its own (wait returns its code), or an exception is delivered at
the interruption point. -/
inductive WaitOutcome
  | childExited (code : Int)
  | interrupted (e : PyExc)
deriving DecidableEq

/-- Actions the shutdown sequence of main (run.py lines 238 to 242) issues
on the child, in order. -/
inductive SupAction
  | terminate
  | waitChild (timeout : Nat)
  | kill
deriving DecidableEq

/-- Timeout of the graceful phase of the shutdown sequence:
server_process.wait(timeout=5). -/
def graceful_timeout : Nat := 5

/-- Trace of the shutdown sequence in the KeyboardInterrupt branch of main:
terminate first, then wait(timeout=5); only when the child has not exited
by the timeout does the bare except clause issue kill.  The parameter says
whether the child exits within the timeout after terminate. -/
def shutdown_sequence (respondsWithinTimeout : Bool) : List SupAction :=
  if respondsWithinTimeout then
    [SupAction.terminate, SupAction.waitChild graceful_timeout]
  else
    [SupAction.terminate, SupAction.waitChild graceful_timeout, SupAction.kill]

/-- Terminal state of the child as the supervisor leaves it. -/
inductive ChildFinal
  | notSpawned
  | exited (code : Int)
  | terminated
  | killed
  | running
  | termSignalled
deriving DecidableEq

/-- Final child state produced by the shutdown sequence: killed exactly when
the trace contains a kill, terminated otherwise. -/
def shutdown_final (respondsWithinTimeout : Bool) : ChildFinal :=
  if SupAction.kill ∈ shutdown_sequence respondsWithinTimeout then ChildFinal.killed
  else ChildFinal.terminated

/-- State of the child when the launcher process dies without touching it
(for example, when the SystemExit raised by the signal handler propagates
out of main): a child that never spawned stays absent, one that exits on
its own ends exited, a healthy one is left running, orphaned. -/
def childAfterLauncherExit : SpawnBehavior → ChildFinal
  | SpawnBehavior.popenFault _ => ChildFinal.notSpawned
  | SpawnBehavior.earlyExit c _ _ => ChildFinal.exited c
  | SpawnBehavior.alive => ChildFinal.running

/-- Phases of main at which a SIGINT can be delivered once the handler is
registered (registration is the first statement of main). -/
inductive Phase
  | versionCheck
  | reqCheck
  | prompt
  | installing
  | spawning
  | browser
  | waiting
deriving DecidableEq

/-- External inputs of one run of main: the interpreter version, the
filesystem snapshot, the line typed at the prompt, the outcomes of the two
pip invocations, the behaviour of the spawned child, whether the browser
open faults, how the blocking wait ends, and whether the child responds to
terminate within the shutdown timeout. -/
structure World where
  pyMajor : Nat
  pyMinor : Nat
  fs : FS
  userInput : String
  upgrade : CmdResult
  installCmd : CmdResult
  spawn : SpawnBehavior
  browserFault : Option String
  waitOutcome : WaitOutcome
  respondsToTerminate : Bool

/-- Observable result of one run of the launcher process: its exit code,
the final state of the child, what the browser step did (none when it never
ran), and whether the except KeyboardInterrupt branch of main executed. -/
structure RunResult where
  exitCode : Nat
  child : ChildFinal
  browser : Option BrowserOutcome
  kbBranch : Bool
deriving DecidableEq

/-- Gate: the Python version check passes. -/
def versionOK (w : World) : Bool := check_python_version w.pyMajor w.pyMinor

/-- Gate: check_requirements returns True. -/
def reqOK (w : World) : Bool := (check_requirements w.fs).ok

/-- Python str.lower (ASCII view, which is all the compared literals
need): lower-case every character. -/
def pyLower (s : String) : String :=
  String.mk (s.data.map Char.toLower)

/-- Python str.strip with no argument: drop leading and trailing
whitespace. -/
def pyStrip (s : String) : String :=
  String.mk (((s.data.dropWhile Char.isWhitespace).reverse.dropWhile Char.isWhitespace).reverse)

/-- Gate: the confirmation prompt (run.py line 210) accepts, which the code
tests by input().lower().strip() being y or yes. -/
def promptYes (w : World) : Bool :=
  pyStrip (pyLower w.userInput) == "y" || pyStrip (pyLower w.userInput) == "yes"

/-- Gate: install_packages returns True. -/
def installOK (w : World) : Bool := (install_packages w.upgrade w.installCmd).1

/-- Gate: start_server returns a process rather than None. -/
def spawnOK (w : World) : Bool := start_server w.spawn = SpawnResult.success

/-- Last stage of main (run.py lines 232 to 251): the try block around
server_process.wait().  A SIGINT delivered while blocked in wait makes the
registered handler raise, so the wait is interrupted by signal_handler;
otherwise the wait ends as the world says.  A natural child exit falls off
the end of the try, main returns None and sys.exit(None) exits with 0.  A
KeyboardInterrupt runs the shutdown sequence and returns 0.  A SystemExit
is caught by neither clause and propagates: the launcher exits with its
code and the child is untouched, left running.  Any other exception hits
the except Exception branch, which issues terminate without waiting and
returns 1. -/
def waitPhase (w : World) (sigintAt : Option Phase) (b : BrowserOutcome) : RunResult :=
  match (if sigintAt = some Phase.waiting then WaitOutcome.interrupted signal_handler
         else w.waitOutcome) with
  | WaitOutcome.childExited c => ⟨0, ChildFinal.exited c, some b, false⟩
  | WaitOutcome.interrupted PyExc.keyboardInterrupt =>
      ⟨0, shutdown_final w.respondsToTerminate, some b, true⟩
  | WaitOutcome.interrupted (PyExc.systemExit c) => ⟨c, ChildFinal.running, some b, false⟩
  | WaitOutcome.interrupted (PyExc.exception _) => ⟨1, ChildFinal.termSignalled, some b, false⟩

/-- Steps of main after a successful spawn: the browser open (best-effort,
result ignored) and then the wait phase. -/
def postSpawn (w : World) (sigintAt : Option Phase) : RunResult :=
  if sigintAt = some Phase.browser then ⟨0, ChildFinal.running, none, false⟩
  else waitPhase w sigintAt (open_browser w.browserFault)

/-- Embedding of main plus the surrounding __main__ block (run.py lines 187
to 255).  The sigintAt argument injects one SIGINT delivery during the given
phase (none injects no signal); since the handler raises SystemExit(0) and
no clause on the way catches SystemExit (check_requirements and
install_packages and open_browser catch only Exception), a delivered SIGINT
always ends the launcher with exit code 0 at that point.  Otherwise main
runs the gate sequence, returning 1 at the first failing gate, and
sys.exit(main()) turns the returned value into the exit code (None exits
with 0). -/
def runMain (w : World) (sigintAt : Option Phase) : RunResult :=
  if sigintAt = some Phase.versionCheck then ⟨0, ChildFinal.notSpawned, none, false⟩
  else if !versionOK w then ⟨1, ChildFinal.notSpawned, none, false⟩
  else if sigintAt = some Phase.reqCheck then ⟨0, ChildFinal.notSpawned, none, false⟩
  else if !reqOK w then ⟨1, ChildFinal.notSpawned, none, false⟩
  else if sigintAt = some Phase.prompt then ⟨0, ChildFinal.notSpawned, none, false⟩
  else if !promptYes w then ⟨1, ChildFinal.notSpawned, none, false⟩
  else if sigintAt = some Phase.installing then ⟨0, ChildFinal.notSpawned, none, false⟩
  else if !installOK w then ⟨1, ChildFinal.notSpawned, none, false⟩
  else if sigintAt = some Phase.spawning then ⟨0, childAfterLauncherExit w.spawn, none, false⟩
  else match start_server w.spawn with
    | SpawnResult.failure _ => ⟨1, childAfterLauncherExit w.spawn, none, false⟩
    | SpawnResult.success => postSpawn w sigintAt

/-- Which phases a given run reaches (ignoring injected signals): each phase
requires every earlier gate to pass; the browser phase and the wait phase
are both reached exactly when the spawn succeeded, since the browser
outcome gates nothing. -/
def reaches (w : World) : Phase → Bool
  | Phase.versionCheck => true
  | Phase.reqCheck => versionOK w
  | Phase.prompt => versionOK w && reqOK w
  | Phase.installing => versionOK w && reqOK w && promptYes w
  | Phase.spawning => versionOK w && reqOK w && promptYes w && installOK w
  | Phase.browser => versionOK w && reqOK w && promptYes w && installOK w && spawnOK w
  | Phase.waiting => versionOK w && reqOK w && promptYes w && installOK w && spawnOK w

/-- Filesystem snapshot in which every path exists and the .env file reads
back with all three required keys. -/
def fsReady : FS :=
  ⟨fun _ => true,
   Except.ok "SUPABASE_URL=https://p.supabase.co\nSUPABASE_KEY=k\nGEMINI_API_KEY=g\n"⟩

/-- Filesystem snapshot in which main.py is absent and .env would read as
empty. -/
def fsNoMain : FS :=
  ⟨fun f => !(f == "main.py"), Except.ok ""⟩

/-- World whose every gate passes and whose child runs healthily until it
exits with code 0. -/
def wGood : World :=
  ⟨3, 11, fsReady, "y", CmdResult.completed 0 "" "", CmdResult.completed 0 "" "",
   SpawnBehavior.alive, none, WaitOutcome.childExited 0, true⟩

/-- C3: check_requirements reports not ready exactly when one of the four
required files is absent, the .env read faults, or a required KEY= marker is
missing from its content; equivalently, ready holds exactly when all files
exist, the read succeeds and every marker occurs.  As a total Lean function
the embedding also witnesses that the Python original catches the read
fault (its try block) instead of letting it escape. -/
theorem c3_ready_iff (fs : FS) :
    (check_requirements fs).ok = true ↔
      ((∀ f ∈ required_files, fs.pathExists f = true) ∧
       ∃ c, fs.envRead = Except.ok c ∧ ∀ k ∈ required_keys, hasMarker k c = true) := by
  have hfiles : ((required_files.filter (fun f => !fs.pathExists f)).isEmpty = true) ↔
      (∀ f ∈ required_files, fs.pathExists f = true) := by
    simp [List.filter_eq_nil_iff]
  have hkeysIff : ∀ c : String,
      (((required_keys.filter (fun k => !hasMarker k c)).isEmpty = true) ↔
        (∀ k ∈ required_keys, hasMarker k c = true)) := by
    intro c; simp [List.filter_eq_nil_iff]
  unfold check_requirements
  split
  · rename_i hemp
    rw [hfiles] at hemp
    split
    · rename_i e heq
      simp [heq]
    · rename_i c heq
      split
      · rename_i hk
        rw [hkeysIff c] at hk
        simp only [heq, Except.ok.injEq, true_iff]
        refine ⟨hemp, c, rfl, hk⟩
      · rename_i hk
        rw [hkeysIff c] at hk
        simp [heq, hk]
  · rename_i hemp
    rw [hfiles] at hemp
    simp [hemp]

/-- C10: when a required file is missing, check_requirements returns not
ready without ever opening .env, so a nonempty missing-keys report can only
arise in a run where all four required files exist (and .env was opened). -/
theorem c10_missing_file_short_circuits (fs : FS) :
    ((∃ f ∈ required_files, fs.pathExists f = false) →
      (check_requirements fs).ok = false ∧ (check_requirements fs).envOpened = false) ∧
    ((check_requirements fs).missing_keys ≠ [] →
      (∀ f ∈ required_files, fs.pathExists f = true) ∧
      (check_requirements fs).envOpened = true) := by
  have hfiles : ((required_files.filter (fun f => !fs.pathExists f)).isEmpty = true) ↔
      (∀ f ∈ required_files, fs.pathExists f = true) := by
    simp [List.filter_eq_nil_iff]
  by_cases hemp : (required_files.filter (fun f => !fs.pathExists f)).isEmpty = true
  · have hall := hfiles.mp hemp
    constructor
    · rintro ⟨f, hf, habs⟩
      exact absurd (hall f hf) (by simp [habs])
    · intro _
      refine ⟨hall, ?_⟩
      unfold check_requirements
      rw [if_pos hemp]
      rcases h : fs.envRead with e | c
      · rfl
      · split
        · rfl
        · split <;> rfl
  · have hval : check_requirements fs =
        ⟨false, false, required_files.filter (fun f => !fs.pathExists f), []⟩ := by
      unfold check_requirements
      rw [if_neg hemp]
    constructor
    · intro _
      rw [hval]
      exact ⟨rfl, rfl⟩
    · intro hkeys
      rw [hval] at hkeys
      simp at hkeys

/-- Concrete run of the C10 theorem: with main.py absent the probe reports
not ready and the .env file is never opened. -/
theorem c10_witness :
    (check_requirements fsNoMain).ok = false ∧ (check_requirements fsNoMain).envOpened = false :=
  (c10_missing_file_short_circuits fsNoMain).1 ⟨"main.py", by decide, by decide⟩

/-- World identical to wGood except that the user types an empty line at
the confirmation prompt. -/
def wCancel : World :=
  ⟨3, 11, fsReady, "", CmdResult.completed 0 "" "", CmdResult.completed 0 "" "",
   SpawnBehavior.alive, none, WaitOutcome.childExited 0, true⟩

/-- World identical to wGood except that the interpreter is Python 2.7. -/
def wOldPy : World :=
  ⟨2, 7, fsReady, "y", CmdResult.completed 0 "" "", CmdResult.completed 0 "" "",
   SpawnBehavior.alive, none, WaitOutcome.childExited 0, true⟩

/-- Concrete run of the C3 theorem: with every file present and a complete
.env the probe reports ready. -/
theorem c3_witness : (check_requirements fsReady).ok = true :=
  (c3_ready_iff fsReady).mpr ⟨by decide, _, rfl, by decide⟩

/-- C7: check_python_version rejects exactly the versions strictly below
3.8 in major.minor order (so any major above 3 passes), and a rejected
version makes main abort with exit code 1 before anything else runs,
whatever the rest of the world looks like. -/
theorem c7_version_gate (major minor : Nat) (w : World) :
    (check_python_version major minor = false ↔ (major < 3 ∨ (major = 3 ∧ minor < 8))) ∧
    (versionOK w = false → runMain w none = ⟨1, ChildFinal.notSpawned, none, false⟩) := by
  constructor
  · unfold check_python_version
    split <;> rename_i h <;> simp_all
  · intro h
    unfold runMain
    simp [h]

/-- Concrete run of the C7 theorem: on Python 2.7 main aborts with exit
code 1 without spawning anything. -/
theorem c7_witness : runMain wOldPy none = ⟨1, ChildFinal.notSpawned, none, false⟩ :=
  (c7_version_gate 2 7 wOldPy).2 (by decide)

/-- C4: the shutdown sequence of main always issues terminate first, waits
at most graceful_timeout = 5 time units for a voluntary exit, issues kill
exactly when the child has not exited by the timeout (final state killed),
and issues no kill when the child exits in time (final state terminated). -/
theorem c4_shutdown_two_phase (responds : Bool) :
    (shutdown_sequence responds).head? = some SupAction.terminate ∧
    graceful_timeout = 5 ∧
    (∀ t, SupAction.waitChild t ∈ shutdown_sequence responds → t = graceful_timeout) ∧
    (responds = true → SupAction.kill ∉ shutdown_sequence responds ∧
      shutdown_final responds = ChildFinal.terminated) ∧
    (responds = false → SupAction.kill ∈ shutdown_sequence responds ∧
      shutdown_final responds = ChildFinal.killed) := by
  cases responds <;>
    simp [shutdown_sequence, shutdown_final, graceful_timeout]

/-- Concrete run of the C4 theorem: an unresponsive child is killed. -/
theorem c4_witness :
    SupAction.kill ∈ shutdown_sequence false ∧ shutdown_final false = ChildFinal.killed :=
  (c4_shutdown_two_phase false).2.2.2.2 rfl

/-- C5: a child that exits within the 5 second grace window is always
classified as a spawn failure whose report carries the captured stderr and
stdout, and never as success; a child still alive after the window is
reported as success, and success arises only that way. -/
theorem c5_spawn_classification (c : Int) (so se : String) (b : SpawnBehavior) :
    (start_server (SpawnBehavior.earlyExit c so se) =
      SpawnResult.failure (spawn_failure_report so se)) ∧
    (∃ l r, (spawn_failure_report so se).toList = l ++ se.toList ++ r) ∧
    (∃ l r, (spawn_failure_report so se).toList = l ++ so.toList ++ r) ∧
    (start_server SpawnBehavior.alive = SpawnResult.success) ∧
    (start_server b = SpawnResult.success ↔ b = SpawnBehavior.alive) := by
  refine ⟨rfl, ?_, ?_, rfl, ?_⟩
  · by_cases hse : se = ""
    · refine ⟨[], (spawn_failure_report so se).toList, ?_⟩
      subst hse
      rfl
    · refine ⟨("Server failed to start:" ++ " Error: ").toList,
        (if so = "" then "" else " Output: " ++ so).toList, ?_⟩
      unfold spawn_failure_report
      rw [if_neg hse]
      simp [String.toList, List.append_assoc]
  · by_cases hso : so = ""
    · refine ⟨[], (spawn_failure_report so se).toList, ?_⟩
      subst hso
      rfl
    · refine ⟨("Server failed to start:"
          ++ (if se = "" then "" else " Error: " ++ se) ++ " Output: ").toList, [], ?_⟩
      unfold spawn_failure_report
      rw [if_neg hso]
      simp [String.toList, List.append_assoc]
  · cases b <;> simp [start_server]

/-- Concrete run of the C5 theorem: a child exiting with code 1 after
printing to stderr is classified as a failure carrying that stderr. -/
theorem c5_witness :
    start_server (SpawnBehavior.earlyExit 1 "" "boom") =
      SpawnResult.failure (spawn_failure_report "" "boom") ∧
    start_server SpawnBehavior.alive = SpawnResult.success :=
  ⟨(c5_spawn_classification 1 "" "boom" SpawnBehavior.alive).1,
   (c5_spawn_classification 1 "" "boom" SpawnBehavior.alive).2.2.2.1⟩

/-- World equal to w except for the behaviour of the browser-open step. -/
def setBrowserFault (w : World) (f : Option String) : World :=
  ⟨w.pyMajor, w.pyMinor, w.fs, w.userInput, w.upgrade, w.installCmd, w.spawn, f,
   w.waitOutcome, w.respondsToTerminate⟩

@[simp] theorem versionOK_setBrowserFault (w : World) (f : Option String) :
    versionOK (setBrowserFault w f) = versionOK w := rfl

@[simp] theorem reqOK_setBrowserFault (w : World) (f : Option String) :
    reqOK (setBrowserFault w f) = reqOK w := rfl

@[simp] theorem promptYes_setBrowserFault (w : World) (f : Option String) :
    promptYes (setBrowserFault w f) = promptYes w := rfl

@[simp] theorem installOK_setBrowserFault (w : World) (f : Option String) :
    installOK (setBrowserFault w f) = installOK w := rfl

@[simp] theorem spawn_setBrowserFault (w : World) (f : Option String) :
    (setBrowserFault w f).spawn = w.spawn := rfl

@[simp] theorem waitOutcome_setBrowserFault (w : World) (f : Option String) :
    (setBrowserFault w f).waitOutcome = w.waitOutcome := rfl

@[simp] theorem respondsToTerminate_setBrowserFault (w : World) (f : Option String) :
    (setBrowserFault w f).respondsToTerminate = w.respondsToTerminate := rfl

/-- Runs of main with no injected signal abort with exit 1 at a failing
version gate. -/
theorem rm_vfail (w : World) (hv : versionOK w = false) :
    runMain w none = ⟨1, ChildFinal.notSpawned, none, false⟩ := by
  unfold runMain
  simp [hv]

/-- Runs of main with no injected signal abort with exit 1 at a failing
requirements gate. -/
theorem rm_rfail (w : World) (hv : versionOK w = true) (hr : reqOK w = false) :
    runMain w none = ⟨1, ChildFinal.notSpawned, none, false⟩ := by
  unfold runMain
  simp [hv, hr]

/-- Runs of main with no injected signal abort with exit 1 when the user
declines at the prompt. -/
theorem rm_pfail (w : World) (hv : versionOK w = true) (hr : reqOK w = true)
    (hp : promptYes w = false) :
    runMain w none = ⟨1, ChildFinal.notSpawned, none, false⟩ := by
  unfold runMain
  simp [hv, hr, hp]

/-- Runs of main with no injected signal abort with exit 1 at a failing
install gate. -/
theorem rm_ifail (w : World) (hv : versionOK w = true) (hr : reqOK w = true)
    (hp : promptYes w = true) (hi : installOK w = false) :
    runMain w none = ⟨1, ChildFinal.notSpawned, none, false⟩ := by
  unfold runMain
  simp [hv, hr, hp, hi]

/-- Runs of main with no injected signal abort with exit 1 when the spawn
is classified as failed. -/
theorem rm_sfail (w : World) (hv : versionOK w = true) (hr : reqOK w = true)
    (hp : promptYes w = true) (hi : installOK w = true) (d : String)
    (hs : start_server w.spawn = SpawnResult.failure d) :
    runMain w none = ⟨1, childAfterLauncherExit w.spawn, none, false⟩ := by
  unfold runMain
  simp [hv, hr, hp, hi, hs]

/-- Runs of main with no injected signal and a successful spawn continue
into the wait phase, carrying the browser outcome. -/
theorem rm_success (w : World) (hv : versionOK w = true) (hr : reqOK w = true)
    (hp : promptYes w = true) (hi : installOK w = true)
    (hs : start_server w.spawn = SpawnResult.success) :
    runMain w none = waitPhase w none (open_browser w.browserFault) := by
  unfold runMain postSpawn
  simp [hv, hr, hp, hi, hs]

/-- Wait outcomes the code treats as a clean shutdown: a natural child exit
(main falls off the try block and returns None) and a KeyboardInterrupt
(the shutdown branch returns 0). -/
def waitClean : WaitOutcome → Bool
  | WaitOutcome.childExited _ => true
  | WaitOutcome.interrupted PyExc.keyboardInterrupt => true
  | _ => false

/-- C6: install_packages fails with the nonempty captured-stderr diagnostic
exactly when the install command exits nonzero and succeeds when it exits
zero; the exit status of the preliminary pip upgrade never changes the
outcome; and a fault invoking the command is captured as a failure with a
distinct nonempty diagnostic instead of propagating. -/
theorem c6_install_outcome (up iCode : Int) (upOut upErr iOut iErr m : String) :
    (iCode ≠ 0 →
      install_packages (CmdResult.completed up upOut upErr) (CmdResult.completed iCode iOut iErr)
          = (false, install_fail_diag iErr) ∧
        install_fail_diag iErr ≠ "") ∧
    (install_packages (CmdResult.completed up upOut upErr) (CmdResult.completed 0 iOut iErr)
        = (true, "")) ∧
    (∀ (up2 : Int) (o2 e2 : String) (inst : CmdResult),
      install_packages (CmdResult.completed up upOut upErr) inst
        = install_packages (CmdResult.completed up2 o2 e2) inst) ∧
    (install_packages (CmdResult.completed up upOut upErr) (CmdResult.fault m)
        = (false, unexpected_error_diag m) ∧
      unexpected_error_diag m ≠ "" ∧
      ∀ e : String, unexpected_error_diag m ≠ install_fail_diag e) := by
  refine ⟨?_, by simp [install_packages], fun up2 o2 e2 inst => rfl, rfl, ?_, ?_⟩
  · intro h
    refine ⟨?_, ?_⟩
    · simp [install_packages, h]
    · intro hemp
      have hh : (install_fail_diag iErr).data.head? = some 'P' := rfl
      rw [hemp] at hh
      exact absurd hh (by decide)
  · intro hemp
    have hh : (unexpected_error_diag m).data.head? = some 'U' := rfl
    rw [hemp] at hh
    exact absurd hh (by decide)
  · intro e h
    have hU : (unexpected_error_diag m).data.head? = some 'U' := rfl
    rw [h] at hU
    have hP : (install_fail_diag e).data.head? = some 'P' := rfl
    rw [hP] at hU
    exact absurd hU (by decide)

/-- Concrete run of the C6 theorem: an install exit of 1 with stderr
"permission denied" fails with that diagnostic, while a zero exit after a
failed upgrade succeeds. -/
theorem c6_witness :
    install_packages (CmdResult.completed 0 "" "") (CmdResult.completed 1 "" "permission denied")
        = (false, install_fail_diag "permission denied") ∧
    install_packages (CmdResult.completed 1 "" "upgrade broke") (CmdResult.completed 0 "" "")
        = (true, "") :=
  ⟨((c6_install_outcome 0 1 "" "" "" "permission denied" "x").1 (by decide)).1,
   (c6_install_outcome 1 0 "" "upgrade broke" "" "" "x").2.1⟩

/-- Browser outcome only lands in the browser field of the wait-phase
result; exit code, child state and branch taken do not depend on it. -/
theorem waitPhase_parts (w : World) (s : Option Phase) (b1 b2 : BrowserOutcome) :
    (waitPhase w s b1).exitCode = (waitPhase w s b2).exitCode ∧
    (waitPhase w s b1).child = (waitPhase w s b2).child ∧
    (waitPhase w s b1).kbBranch = (waitPhase w s b2).kbBranch := by
  unfold waitPhase
  rcases h : (if s = some Phase.waiting then WaitOutcome.interrupted signal_handler
      else w.waitOutcome) with c | e
  · simp [h]
  · rcases e with _ | c | msg <;> simp [h]

/-- When the browser field of a run is filled in at all, the spawn
succeeded: every abort path and every signal-interrupted path before the
wait phase leaves it empty. -/
theorem browser_ran_implies_spawn (w : World) (s : Option Phase)
    (h : (runMain w s).browser.isSome = true) :
    start_server w.spawn = SpawnResult.success := by
  unfold runMain at h
  by_cases h1 : s = some Phase.versionCheck
  · rw [if_pos h1] at h
    simp at h
  rw [if_neg h1] at h
  by_cases h2 : (!versionOK w) = true
  · rw [if_pos h2] at h
    simp at h
  rw [if_neg h2] at h
  by_cases h3 : s = some Phase.reqCheck
  · rw [if_pos h3] at h
    simp at h
  rw [if_neg h3] at h
  by_cases h4 : (!reqOK w) = true
  · rw [if_pos h4] at h
    simp at h
  rw [if_neg h4] at h
  by_cases h5 : s = some Phase.prompt
  · rw [if_pos h5] at h
    simp at h
  rw [if_neg h5] at h
  by_cases h6 : (!promptYes w) = true
  · rw [if_pos h6] at h
    simp at h
  rw [if_neg h6] at h
  by_cases h7 : s = some Phase.installing
  · rw [if_pos h7] at h
    simp at h
  rw [if_neg h7] at h
  by_cases h8 : (!installOK w) = true
  · rw [if_pos h8] at h
    simp at h
  rw [if_neg h8] at h
  by_cases h9 : s = some Phase.spawning
  · rw [if_pos h9] at h
    simp at h
  rw [if_neg h9] at h
  rcases hss : start_server w.spawn with _ | d
  · rfl
  · rw [hss] at h
    exact absurd h (by simp)

/-- SIGINT delivered during the version check exits 0 with nothing
spawned. -/
theorem rm_sig_version (w : World) :
    runMain w (some Phase.versionCheck) = ⟨0, ChildFinal.notSpawned, none, false⟩ := rfl

/-- SIGINT delivered during the requirements check exits 0 with nothing
spawned. -/
theorem rm_sig_req (w : World) (hv : versionOK w = true) :
    runMain w (some Phase.reqCheck) = ⟨0, ChildFinal.notSpawned, none, false⟩ := by
  unfold runMain
  simp [hv]

/-- SIGINT delivered at the prompt exits 0 with nothing spawned. -/
theorem rm_sig_prompt (w : World) (hv : versionOK w = true) (hr : reqOK w = true) :
    runMain w (some Phase.prompt) = ⟨0, ChildFinal.notSpawned, none, false⟩ := by
  unfold runMain
  simp [hv, hr]

/-- SIGINT delivered during the install exits 0 with nothing spawned. -/
theorem rm_sig_install (w : World) (hv : versionOK w = true) (hr : reqOK w = true)
    (hp : promptYes w = true) :
    runMain w (some Phase.installing) = ⟨0, ChildFinal.notSpawned, none, false⟩ := by
  unfold runMain
  simp [hv, hr, hp]

/-- SIGINT delivered during the spawn grace sleep exits 0 and leaves the
child to its own devices. -/
theorem rm_sig_spawn (w : World) (hv : versionOK w = true) (hr : reqOK w = true)
    (hp : promptYes w = true) (hi : installOK w = true) :
    runMain w (some Phase.spawning) = ⟨0, childAfterLauncherExit w.spawn, none, false⟩ := by
  unfold runMain
  simp [hv, hr, hp, hi]

/-- SIGINT delivered during the browser step exits 0 with the child left
running. -/
theorem rm_sig_browser (w : World) (hv : versionOK w = true) (hr : reqOK w = true)
    (hp : promptYes w = true) (hi : installOK w = true)
    (hs : start_server w.spawn = SpawnResult.success) :
    runMain w (some Phase.browser) = ⟨0, ChildFinal.running, none, false⟩ := by
  unfold runMain postSpawn
  simp [hv, hr, hp, hi, hs]

/-- SIGINT delivered while blocked in wait makes the registered handler
raise SystemExit(0); neither except clause catches it, so the launcher
exits 0 and the child is left running. -/
theorem rm_sig_wait (w : World) (hv : versionOK w = true) (hr : reqOK w = true)
    (hp : promptYes w = true) (hi : installOK w = true)
    (hs : start_server w.spawn = SpawnResult.success) :
    runMain w (some Phase.waiting) =
      ⟨0, ChildFinal.running, some (open_browser w.browserFault), false⟩ := by
  unfold runMain postSpawn waitPhase
  simp [hv, hr, hp, hi, hs, signal_handler]

/-- Moving the browser fault through waitPhase changes nothing: the wait
phase of a world with a different browser fault is the same function. -/
theorem waitPhase_setBrowserFault (w : World) (f : Option String) (s : Option Phase)
    (b : BrowserOutcome) : waitPhase (setBrowserFault w f) s b = waitPhase w s b := rfl

/-- C8: the browser step runs only after a successful spawn (a filled-in
browser outcome implies the spawn succeeded); a fault in it is caught and
turned into a warning; and the browser behaviour changes neither the exit
code, nor the final child state, nor which wait branch runs, whatever the
rest of the run and the signal timing look like. -/
theorem c8_browser_never_gates (w : World) (s : Option Phase) (f : Option String) (e : String) :
    ((runMain w s).browser.isSome = true → spawnOK w = true) ∧
    ((runMain (setBrowserFault w f) s).exitCode = (runMain w s).exitCode ∧
     (runMain (setBrowserFault w f) s).child = (runMain w s).child ∧
     (runMain (setBrowserFault w f) s).kbBranch = (runMain w s).kbBranch) ∧
    (open_browser (some e)
        = BrowserOutcome.warned ("Failed to open the browser automatically: " ++ e)) := by
  refine ⟨?_, ?_, rfl⟩
  · intro h
    have hs := browser_ran_implies_spawn w s h
    simp [spawnOK, hs]
  · unfold runMain
    by_cases h1 : s = some Phase.versionCheck
    · simp [h1]
    by_cases h2 : (!versionOK w) = true
    · simp [h1, h2]
    by_cases h3 : s = some Phase.reqCheck
    · simp [h1, h2, h3]
    by_cases h4 : (!reqOK w) = true
    · simp [h1, h2, h3, h4]
    by_cases h5 : s = some Phase.prompt
    · simp [h1, h2, h3, h4, h5]
    by_cases h6 : (!promptYes w) = true
    · simp [h1, h2, h3, h4, h5, h6]
    by_cases h7 : s = some Phase.installing
    · simp [h1, h2, h3, h4, h5, h6, h7]
    by_cases h8 : (!installOK w) = true
    · simp [h1, h2, h3, h4, h5, h6, h7, h8]
    by_cases h9 : s = some Phase.spawning
    · simp [h1, h2, h3, h4, h5, h6, h7, h8, h9]
    rcases hss : start_server w.spawn with _ | d
    · simp only [spawn_setBrowserFault, hss, h1, h2, h3, h4, h5, h6, h7, h8, h9,
        versionOK_setBrowserFault, reqOK_setBrowserFault, promptYes_setBrowserFault,
        installOK_setBrowserFault, if_neg, if_false]
      unfold postSpawn
      by_cases h10 : s = some Phase.browser
      · simp [h10]
      · simp only [h10, if_neg, if_false, ite_false, waitPhase_setBrowserFault]
        simp [h10]
        exact waitPhase_parts w s (open_browser f) (open_browser w.browserFault)
    · simp [h1, h2, h3, h4, h5, h6, h7, h8, h9, hss]

/-- Concrete run of the C8 theorem: in the healthy world a browser fault
leaves the exit code untouched. -/
theorem c8_witness :
    spawnOK wGood = true ∧
    (runMain (setBrowserFault wGood (some "no display")) none).exitCode
        = (runMain wGood none).exitCode :=
  ⟨(c8_browser_never_gates wGood none none "x").1 (by decide),
   (c8_browser_never_gates wGood none (some "no display") "x").2.1.1⟩

/-- C9: once the handler is registered at the start of main, a SIGINT
delivered in any phase the run reaches exits the launcher with code 0,
never runs the KeyboardInterrupt branch of main, and never sends terminate
or kill to the child (the final child state is never terminated, killed or
termSignalled). -/
theorem c9_sigint_always_exit_zero (w : World) (p : Phase) (hre : reaches w p = true) :
    (runMain w (some p)).exitCode = 0 ∧
    (runMain w (some p)).kbBranch = false ∧
    (runMain w (some p)).child ≠ ChildFinal.terminated ∧
    (runMain w (some p)).child ≠ ChildFinal.killed ∧
    (runMain w (some p)).child ≠ ChildFinal.termSignalled := by
  cases p
  case versionCheck =>
    rw [rm_sig_version w]
    simp
  case reqCheck =>
    simp only [reaches] at hre
    rw [rm_sig_req w hre]
    simp
  case prompt =>
    simp only [reaches, Bool.and_eq_true] at hre
    rw [rm_sig_prompt w hre.1 hre.2]
    simp
  case installing =>
    simp only [reaches, Bool.and_eq_true] at hre
    rw [rm_sig_install w hre.1.1 hre.1.2 hre.2]
    simp
  case spawning =>
    simp only [reaches, Bool.and_eq_true] at hre
    rw [rm_sig_spawn w hre.1.1.1 hre.1.1.2 hre.1.2 hre.2]
    rcases hsp : w.spawn with m | ⟨c, so, se⟩ | _ <;>
      simp [childAfterLauncherExit, hsp]
  case browser =>
    simp only [reaches, Bool.and_eq_true] at hre
    obtain ⟨⟨⟨⟨hv, hr⟩, hp⟩, hi⟩, hs⟩ := hre
    rw [rm_sig_browser w hv hr hp hi (by simpa [spawnOK] using hs)]
    simp
  case waiting =>
    simp only [reaches, Bool.and_eq_true] at hre
    obtain ⟨⟨⟨⟨hv, hr⟩, hp⟩, hi⟩, hs⟩ := hre
    rw [rm_sig_wait w hv hr hp hi (by simpa [spawnOK] using hs)]
    simp

/-- Concrete run of the C9 theorem: SIGINT while blocked in wait in the
healthy world exits 0 without running the KeyboardInterrupt branch. -/
theorem c9_witness :
    (runMain wGood (some Phase.waiting)).exitCode = 0 ∧
    (runMain wGood (some Phase.waiting)).kbBranch = false :=
  ⟨(c9_sigint_always_exit_zero wGood Phase.waiting (by decide)).1,
   (c9_sigint_always_exit_zero wGood Phase.waiting (by decide)).2.1⟩

/-- C1 (behaviour of the code at the failing input): in a fully healthy run
a SIGINT delivered while main is blocked in wait exits the launcher with
code 0 and leaves the child in state running, neither terminated nor
killed, because signal_handler raises SystemExit(0), which neither the
except KeyboardInterrupt clause nor the except Exception clause catches. -/
theorem c1_sigint_leaves_child_running :
    reaches wGood Phase.waiting = true ∧
    runMain wGood (some Phase.waiting)
        = ⟨0, ChildFinal.running, some BrowserOutcome.opened, false⟩ ∧
    (runMain wGood (some Phase.waiting)).child ≠ ChildFinal.terminated ∧
    (runMain wGood (some Phase.waiting)).child ≠ ChildFinal.killed := by
  refine ⟨by decide, ?_, by decide, by decide⟩
  rw [rm_sig_wait wGood (by decide) (by decide) (by decide) (by decide) (by decide)]
  rfl

/-- C2 counterexample: a run that reaches the confirmation prompt and is
cancelled there (empty input, which the code treats as no) exits with code
1, not 0. -/
theorem c2_cancel_exits_one :
    reaches wCancel Phase.prompt = true ∧ promptYes wCancel = false ∧
    (runMain wCancel none).exitCode = 1 := by
  refine ⟨by decide, by decide, ?_⟩
  rw [rm_pfail wCancel (by decide) (by decide) (by decide)]

/-- C2 (amended): with no signal injected and the wait not ended by a raw
SystemExit delivery, the exit code is 0 exactly when every gate passes and
the wait ends cleanly (natural child exit or the KeyboardInterrupt
shutdown branch); it is 1 when the user cancels at the prompt, exactly as
for a precondition, install or spawn failure or an unexpected fault in the
wait phase. -/
theorem c2_exit_codes_amended (w : World)
    (hnse : ∀ c, w.waitOutcome ≠ WaitOutcome.interrupted (PyExc.systemExit c)) :
    (runMain w none).exitCode =
      (if versionOK w && reqOK w && promptYes w && installOK w && spawnOK w
          && waitClean w.waitOutcome then 0 else 1) := by
  by_cases hv : versionOK w = true
  · by_cases hr : reqOK w = true
    · by_cases hp : promptYes w = true
      · by_cases hi : installOK w = true
        · rcases hss : start_server w.spawn with _ | d
          · rw [rm_success w hv hr hp hi hss]
            have hsOK : spawnOK w = true := by simp [spawnOK, hss]
            rcases ho : w.waitOutcome with c | e
            · unfold waitPhase
              simp [ho, hv, hr, hp, hi, hsOK, waitClean]
            · rcases e with _ | c | m
              · unfold waitPhase
                simp [ho, hv, hr, hp, hi, hsOK, waitClean]
              · exact absurd ho (hnse c)
              · unfold waitPhase
                simp [ho, hv, hr, hp, hi, hsOK, waitClean]
          · rw [rm_sfail w hv hr hp hi d hss]
            have hsOK : spawnOK w = false := by simp [spawnOK, hss]
            simp [hsOK]
        · simp only [Bool.not_eq_true] at hi
          rw [rm_ifail w hv hr hp hi]
          simp [hi]
      · simp only [Bool.not_eq_true] at hp
        rw [rm_pfail w hv hr hp]
        simp [hp]
    · simp only [Bool.not_eq_true] at hr
      rw [rm_rfail w hv hr]
      simp [hr]
  · simp only [Bool.not_eq_true] at hv
    rw [rm_vfail w hv]
    simp [hv]

/-- Concrete run of the amended C2 theorem at the healthy world. -/
theorem c2_witness :
    (runMain wGood none).exitCode =
      (if versionOK wGood && reqOK wGood && promptYes wGood && installOK wGood
          && spawnOK wGood && waitClean wGood.waitOutcome then 0 else 1) :=
  c2_exit_codes_amended wGood (fun _ h => WaitOutcome.noConfusion h)

end RAG
